import Mathlib

/-!
Shallow embedding of the BlueZ-mesh node sample `node_prov.py` (the repository's
single source file) and proofs about the claims of its specification.

Conventions of the embedding:
* Python module globals (`token`, `have_token`, `attached`, `input_error`,
  `scanned`, the armed `threading.Timer` set) are gathered into explicit state
  records threaded through the functions that read or write them.
* A `threading.Timer` instance is represented by a fresh numeric id; `Sys.armed`
  lists the ids of timers that have been `start`ed and have neither fired nor
  been cancelled.
* A Python exception that escapes a function is an `Except.error` carrying the
  state at the moment the exception was raised (in-place mutations performed
  before the raise survive, exactly as for the CPython objects).
* File contents (`scan.txt`) are passed in as the `readlines()` result; `none`
  means the file could not be opened.
* `numpy.uint64` conversion wraps its integer argument modulo 2^64 (numpy 1.x
  behaviour, the numpy generation this 2021-2022 code ran against).
* Python `int(s, 16)` is modelled for ASCII inputs: optional surrounding
  whitespace, optional sign, optional `0x`/`0X` prefix (optionally followed by
  one underscore), then hexadecimal digits with single underscores allowed
  between digits.
-/

namespace NodeProv

/-- A callback value handed to a timer: in the source the bound method
`self.publish` of the vendor model is what gets passed to `ModTimer.start`. -/
inductive Cb
  | publish (modelId : Nat)
deriving DecidableEq, Repr

/-- Bookkeeping for `threading.Timer` objects: `nextId` is a fresh-id source,
`armed` lists the ids of timers that are started and have neither fired nor
been cancelled. -/
structure Sys where
  nextId : Nat
  armed : List Nat
deriving DecidableEq, Repr

/-- A `Sys` is well formed when every armed id was previously issued. -/
def Sys.wf (s : Sys) : Prop := ∀ i ∈ s.armed, i < s.nextId

/-- State of a `ModTimer` instance (`node_prov.py`, `class ModTimer`). -/
structure ModTimer where
  seconds : Option ℚ
  func : Option Cb
  thread : Option Nat
  busy : Bool
deriving DecidableEq, Repr

/-- Source `ModTimer.__init__`: `seconds = None; func = None; thread = None; busy = False`. -/
def freshModTimer : ModTimer := ⟨none, none, none, false⟩

/-- Source `ModTimer._schedule_timer`:
`self.thread = Timer(self.seconds, self._timeout_cb); self.thread.start()` —
a brand new timer object is created and armed; the previous value of
`self.thread` is merely overwritten (an armed predecessor keeps running). -/
def ModTimer.scheduleTimer (t : ModTimer) (s : Sys) : ModTimer × Sys :=
  ({ t with thread := some s.nextId },
   { s with nextId := s.nextId + 1, armed := s.armed ++ [s.nextId] })

/-- Source `ModTimer.start(seconds, func)`: stores `func` and `seconds`, then arms a
new timer unless `busy` is set. -/
def ModTimer.start (t : ModTimer) (secs : ℚ) (f : Cb) (s : Sys) : ModTimer × Sys :=
  let t1 : ModTimer := { t with func := some f, seconds := some secs }
  if t1.busy then (t1, s) else t1.scheduleTimer s

/-- Source `ModTimer.cancel`: cancels the tracked timer object, if any, and clears the
reference. A timer that already fired is absent from `armed`, so erasing it is
a no-op, matching `threading.Timer.cancel` on an expired timer. -/
def ModTimer.cancel (t : ModTimer) (s : Sys) : ModTimer × Sys :=
  match t.thread with
  | none => (t, s)
  | some i => ({ t with thread := none }, { s with armed := s.armed.erase i })

/-- Source `ModTimer._timeout_cb`, executed when armed timer `firedId` fires: the
firing timer leaves the armed set, then `self.func()` runs (`funcFails` models
it raising; calling a `None` func also raises), then `busy = True`, reschedule,
`busy = False`.  An `.error` is an exception escaping the timer thread: the
reschedule never happens. -/
def ModTimer.timeout_cb (t : ModTimer) (firedId : Nat) (funcFails : Bool) (s : Sys) :
    Except (ModTimer × Sys) (ModTimer × Sys) :=
  let s1 : Sys := { s with armed := s.armed.erase firedId }
  match t.func with
  | none => .error (t, s1)
  | some _ =>
    if funcFails then .error (t, s1)
    else
      let t1 : ModTimer := { t with busy := true }
      let ts2 := t1.scheduleTimer s1
      .ok ({ ts2.1 with busy := false }, ts2.2)

/-- Outbound network operations issued against the daemon; used to record that
a code path performs no network call. -/
inductive NetCall
  | attachReq (tok : Nat)
  | joinReq
  | removeReq
deriving DecidableEq, Repr

/-- Source `model.state` of the vendor model: the integer `0` set by `__init__`, or the
JSON-encoded scan dictionary set by `set_publication`. -/
inductive MState
  | num (n : Nat)
  | scanJson (d : List (String × String))
deriving DecidableEq, Repr

/-- Which Python class a model instance belongs to (`Model` or `MyVendor`);
selects the `set_publication` / `process_message` override. -/
inductive Variant
  | base
  | myVendor
deriving DecidableEq, Repr

/-- A model instance.  `timer` is the attribute set to `None` by
`Model.__init__` (nothing in this program ever assigns it a timer);
`pub_timer` / `t_timer` are the extra attributes created only by
`MyVendor.__init__` (`none` = attribute absent on a base model). -/
structure Model where
  variant : Variant
  model_id : Nat
  vendor : Nat
  bindings : List Nat
  pub_period : Nat
  timer : Option ModTimer
  pub_timer : Option ModTimer
  t_timer : Option ModTimer
  state : MState
deriving DecidableEq, Repr

/-- Source `Model.__init__(model_id)`. -/
def mkModel (mid : Nat) : Model :=
  ⟨.base, mid, 0xffff, [], 0, none, none, none, .num 0⟩

/-- Source `MyVendor.__init__(model_id)`: base init, then vendor id `0x05F1`,
`state = 0`, fresh `pub_timer` and `t_timer`. -/
def mkMyVendor (mid : Nat) : Model :=
  { mkModel mid with
      variant := .myVendor
      vendor := 0x05F1
      state := .num 0
      pub_timer := some freshModTimer
      t_timer := some freshModTimer }

/-- Source `Model.get_id`. -/
def Model.get_id (m : Model) : Nat := m.model_id

/-- Source `Model.get_vendor`. -/
def Model.get_vendor (m : Model) : Nat := m.vendor

/-- An element: index plus registered models, in registration order. -/
structure Element where
  index : Int
  models : List Model
deriving DecidableEq, Repr

/-- Source `Element.get_index`. -/
def Element.get_index (e : Element) : Int := e.index

/-- The module globals touched by the publication machinery: the timer system,
the global `scanned` dictionary, and whether `mainloop.quit()` was called. -/
structure World where
  sys : Sys
  scanned : List (String × String)
  quit : Bool
deriving DecidableEq, Repr

/-- Process-wide state: the application's elements plus the module globals
`attached`, `have_token`, `token`, `input_error`, and the `World`. -/
structure Proc where
  elements : List Element
  attached : Bool
  have_token : Bool
  token : Option Nat
  input_error : Bool
  world : World
deriving DecidableEq, Repr

/-- Module state at interpreter start-up. -/
def initWorld : World := ⟨⟨0, []⟩, [], false⟩

/-- Globals at start-up: `token = None`, `have_token = False`,
`attached = False`, `input_error = False`, no elements registered yet. -/
def initProc : Proc := ⟨[], false, false, none, false, initWorld⟩

/-- Collapse an exceptional and a normal outcome to the state they carry. -/
def resOf {α : Type} : Except α α → α
  | .ok a => a
  | .error a => a

/-! ### Token parsing (`set_token` and Python `int(s, 16)`) -/

/-- ASCII whitespace stripped by Python `int()`. -/
def isPySpace (c : Char) : Bool :=
  c = ' ' || c = '\t' || c = '\n' || c = '\r' || c = '\x0b' || c = '\x0c'

/-- Value of one hexadecimal digit. -/
def hexDigitVal (c : Char) : Option Nat :=
  if '0' ≤ c ∧ c ≤ '9' then some (c.toNat - '0'.toNat)
  else if 'a' ≤ c ∧ c ≤ 'f' then some (c.toNat - 'a'.toNat + 10)
  else if 'A' ≤ c ∧ c ≤ 'F' then some (c.toNat - 'A'.toNat + 10)
  else none

/-- Hexadecimal digits after the first one, allowing a single underscore
between consecutive digits (CPython underscore rule). -/
def hexUnd : List Char → Nat → Option Nat
  | [], acc => some acc
  | ['_'], _ => none
  | '_' :: c :: rest, acc =>
    match hexDigitVal c with
    | some v => hexUnd rest (16 * acc + v)
    | none => none
  | c :: rest, acc =>
    match hexDigitVal c with
    | some v => hexUnd rest (16 * acc + v)
    | none => none

/-- A digit-led run of hexadecimal digits with underscores. -/
def digitLed : List Char → Option Nat
  | [] => none
  | c :: rest =>
    match hexDigitVal c with
    | some v => hexUnd rest v
    | none => none

/-- Unsigned part of a base-16 literal: optional `0x`/`0X` prefix, which may be
followed by a single underscore, then digits. -/
def hexBody (l : List Char) : Option Nat :=
  match l with
  | '0' :: x :: rest =>
    if x = 'x' || x = 'X' then
      match rest with
      | '_' :: rest' => digitLed rest'
      | _ => digitLed rest
    else digitLed l
  | _ => digitLed l

/-- Strip surrounding ASCII whitespace. -/
def stripWs (l : List Char) : List Char :=
  ((l.dropWhile isPySpace).reverse.dropWhile isPySpace).reverse

/-- Python `int(s, 16)` on an ASCII string: `none` models `ValueError`. -/
def pyIntHex (s : String) : Option Int :=
  match stripWs s.data with
  | '+' :: rest => (hexBody rest).map (fun n => (n : Int))
  | '-' :: rest => (hexBody rest).map (fun n => -(n : Int))
  | l => (hexBody l).map (fun n => (n : Int))

/-- Source `raise_error`: sets the global `input_error` flag (and prints). -/
def raise_error (p : Proc) : Proc := { p with input_error := true }

/-- Source `set_token(str_value)`: length check, `int(str_value, 16)`, then
`token = numpy.uint64(...)`, `have_token = True`.  The second component lists
the network calls performed (there are none on any path). -/
def set_token (str_value : String) (p : Proc) : Proc × List NetCall :=
  if str_value.length ≠ 16 then (raise_error p, [])
  else
    match pyIntHex str_value with
    | none => (raise_error p, [])
    | some n =>
      ({ p with token := some ((n % ((2 : Int) ^ 64)).toNat), have_token := true }, [])

/-! ### The vendor model's scan-file parsing and publication arming -/

/-- Split a character list at every occurrence of `sep`, keeping empty parts
(the behaviour of Python `str.split(' ')`). -/
def splitChars (sep : Char) (l : List Char) : List (List Char) :=
  l.foldr
    (fun c acc =>
      match acc with
      | [] => [[c]]
      | cur :: rest => if c = sep then [] :: cur :: rest else (c :: cur) :: rest)
    [[]]

/-- Python `str.split(' ')` (single-space separator, empty parts kept). -/
def splitSp (s : String) : List String :=
  (splitChars ' ' s.data).map fun l => ⟨l⟩

/-- Whether `pat` occurs at the start of `l`. -/
def isPrefixChars : List Char → List Char → Bool
  | [], _ => true
  | _ :: _, [] => false
  | p :: ps, c :: cs => p = c && isPrefixChars ps cs

/-- Whether `pat` occurs anywhere in `l`. -/
def containsChars (pat : List Char) : List Char → Bool
  | [] => isPrefixChars pat []
  | c :: cs => isPrefixChars pat (c :: cs) || containsChars pat cs

/-- Python `sub in s` substring test. -/
def hasSub (s pat : String) : Bool := containsChars pat.data s.data

/-- Python `s[0:-1]`. -/
def dropLast1 (s : String) : String := ⟨s.data.dropLast⟩

/-- Python dict assignment `d[k] = v` (overwrite or append). -/
def dictSet (d : List (String × String)) (k v : String) : List (String × String) :=
  if d.any (fun p => p.1 = k) then d.map (fun p => if p.1 = k then (k, v) else p)
  else d ++ [(k, v)]

/-- The inner `for test in lines` loop run for one `[NEW]` line whose third
token is `'undefined'`: every `[CHG]` line with a matching second token
overwrites the scanned entry.  `.error` models an `IndexError` from a short
line; the partially updated dictionary is carried along. -/
def chgScan (line : String) : List String → List (String × String) →
    Except (List (String × String)) (List (String × String))
  | [], d => .ok d
  | test :: rest, d =>
    if hasSub test "[CHG]" then
      match (splitSp test).get? 2, (splitSp line).get? 2 with
      | some a, some b =>
        if a = b then
          match (splitSp line).get? 4, (splitSp test).get? 3 with
          | some k, some v => chgScan line rest (dictSet d (dropLast1 k) (dropLast1 v))
          | _, _ => .error d
        else chgScan line rest d
      | _, _ => .error d
    else chgScan line rest d

/-- The `for line in lines` loop of `MyVendor.set_publication` updating the
global `scanned` dictionary. -/
def scanLoop (lines : List String) : List String → List (String × String) →
    Except (List (String × String)) (List (String × String))
  | [], d => .ok d
  | line :: rest, d =>
    if hasSub line "[NEW]" then
      match (splitSp line).get? 3 with
      | none => .error d
      | some t3 =>
        if t3 ≠ "undefined" then
          match (splitSp line).get? 4 with
          | none => .error d
          | some t4 => scanLoop lines rest (dictSet d (dropLast1 t4) t3)
        else
          match chgScan line lines d with
          | .error d' => .error d'
          | .ok d' => scanLoop lines rest d'
    else scanLoop lines rest d

/-- Whole-file scan pass: iterate `scanLoop` over all lines of `scan.txt`. -/
def scanLines (lines : List String) (d : List (String × String)) :
    Except (List (String × String)) (List (String × String)) :=
  scanLoop lines lines d

/-- Source `MyVendor.set_publication(period)`: store the period; `0` cancels the
publication timer; below 1000 ms do nothing further; otherwise read `scan.txt`
(`scanFile` is its `readlines()` result, `none` = unopenable), update the
global `scanned`, quit the main loop if nothing was scanned, else record the
JSON state and arm `pub_timer` with `self.publish`. -/
def vendorSetPub (scanFile : Option (List String)) (period : Nat) (m : Model) (w : World) :
    Except (Model × World) (Model × World) :=
  let m1 : Model := { m with pub_period := period }
  if period = 0 then
    match m1.pub_timer with
    | none => .error (m1, w)
    | some pt =>
      let r := pt.cancel w.sys
      .ok ({ m1 with pub_timer := some r.1 }, { w with sys := r.2 })
  else if period < 1000 then
    .ok (m1, w)
  else
    match scanFile with
    | none => .error (m1, w)
    | some lines =>
      if lines.length = 0 then
        .ok (m1, { w with quit := true })
      else
        match scanLines lines w.scanned with
        | .error d => .error (m1, { w with scanned := d })
        | .ok d =>
          if d.length = 0 then
            .ok (m1, { w with scanned := d, quit := true })
          else
            match m1.pub_timer with
            | none => .error ({ m1 with state := .scanJson d }, { w with scanned := d })
            | some pt =>
              let m2 : Model := { m1 with state := .scanJson d }
              let r := pt.start ((period : ℚ) / 1000) (.publish m2.model_id) w.sys
              .ok ({ m2 with pub_timer := some r.1 }, { w with scanned := d, sys := r.2 })

/-- Dynamic dispatch of `set_publication`: the base `Model` method only stores
the period; `MyVendor` overrides it with the arming logic above. -/
def Model.set_publication (m : Model) (scanFile : Option (List String)) (period : Nat)
    (w : World) : Except (Model × World) (Model × World) :=
  match m.variant with
  | .base => .ok ({ m with pub_period := period }, w)
  | .myVendor => vendorSetPub scanFile period m w

/-! ### Model configuration (`set_config`) and the attach fan-out -/

/-- One entry of a `Subscriptions` list after `unwrap`: a group address or a
label delivered as a list of 1-byte `bytes` objects. -/
inductive Sub
  | addr (a : Nat)
  | label (bs : List Nat)
deriving DecidableEq, Repr

/-- A model configuration dictionary: which keys are present and their values. -/
structure Config where
  bindings : Option (List Nat)
  pubPeriod : Option Nat
  subscriptions : Option (List Sub)
deriving DecidableEq, Repr

/-- Source `Model.print_subscriptions`: printing a label runs
`uuid.UUID(bytes=b''.join(sub))`, which raises `ValueError` unless the joined
label is exactly 16 bytes. -/
def print_subscriptions : List Sub → Except Unit Unit
  | [] => .ok ()
  | .addr _ :: rest => print_subscriptions rest
  | .label bs :: rest =>
    if bs.length = 16 then print_subscriptions rest else .error ()

/-- Source `Model.set_config(config)`: store `Bindings` if present, run
`set_publication` if `PublicationPeriod` is present, then print
`Subscriptions` if present (which can itself raise). -/
def Model.set_config (m : Model) (scanFile : Option (List String)) (cfg : Config)
    (w : World) : Except (Model × World) (Model × World) :=
  let m1 : Model :=
    match cfg.bindings with
    | some b => { m with bindings := b }
    | none => m
  let afterPub : Except (Model × World) (Model × World) :=
    match cfg.pubPeriod with
    | some p => m1.set_publication scanFile p w
    | none => .ok (m1, w)
  match afterPub with
  | .error r => .error r
  | .ok (m2, w2) =>
    match cfg.subscriptions with
    | none => .ok (m2, w2)
    | some subs =>
      match print_subscriptions subs with
      | .ok _ => .ok (m2, w2)
      | .error _ => .error (m2, w2)

/-- Source `Element.update_model_config(model_id, config)`: the first model whose id
matches receives `set_config`; remaining models are untouched; a miss is a
silent no-op. -/
def update_model_config (scanFile : Option (List String)) :
    List Model → Nat → Config → World →
    Except (List Model × World) (List Model × World)
  | [], _, _, w => .ok ([], w)
  | m :: ms, mid, cfg, w =>
    if mid = m.get_id then
      match m.set_config scanFile cfg w with
      | .error (m', w') => .error (m' :: ms, w')
      | .ok (m', w') => .ok (m' :: ms, w')
    else
      match update_model_config scanFile ms mid cfg w with
      | .error (ms', w') => .error (m :: ms', w')
      | .ok (ms', w') => .ok (m :: ms', w')

/-- Source `Element.set_model_config(configs)`: apply each `(mod_id, config)` pair in
order. -/
def set_model_config (scanFile : Option (List String)) :
    List (Nat × Config) → List Model → World →
    Except (List Model × World) (List Model × World)
  | [], ms, w => .ok (ms, w)
  | (mid, cfg) :: rest, ms, w =>
    match update_model_config scanFile ms mid cfg w with
    | .error r => .error r
    | .ok (ms', w') => set_model_config scanFile rest ms' w'

/-- Source `struct.unpack('b', el[0])[0]`: the element-index byte read as a signed
char. -/
def signedByte (b : Nat) : Int :=
  if b < 128 then (b : Int) else (b : Int) - 256

/-- Source `Application.get_element(idx)`: first element with matching index, else the
implicit `None`. -/
def get_element (els : List Element) (idx : Int) : Option Element :=
  els.find? (fun e => e.get_index == idx)

/-- Outcome of locating an element and applying one attach entry to it. -/
inductive ApplyRes
  | notFound
  | fail (els : List Element) (w : World)
  | done (els : List Element) (w : World)
deriving DecidableEq, Repr

/-- Locate the first element with the given index (as `get_element` does) and
run `set_model_config` on it; `notFound` corresponds to `get_element`
returning `None`. -/
def applyElems (scanFile : Option (List String)) (idx : Int) (cfgs : List (Nat × Config)) :
    List Element → World → ApplyRes
  | [], _ => .notFound
  | e :: es, w =>
    if e.get_index == idx then
      match set_model_config scanFile cfgs e.models w with
      | .error (ms, w') => .fail ({ e with models := ms } :: es) w'
      | .ok (ms, w') => .done ({ e with models := ms } :: es) w'
    else
      match applyElems scanFile idx cfgs es w with
      | .notFound => .notFound
      | .fail es' w' => .fail (e :: es') w'
      | .done es' w' => .done (e :: es') w'

/-- The `for el in els` loop of `attach_app_cb`: for each delivered
`(indexByte, modelConfigList)` entry, look the element up and apply the
configuration.  When `get_element` returns `None`, the subsequent
`element.set_model_config(models)` raises `AttributeError` (modelled as
`.error` carrying the state reached so far); later entries are not processed. -/
def attachGo (scanFile : Option (List String)) :
    List (Nat × List (Nat × Config)) → Proc → Except Proc Proc
  | [], p => .ok p
  | (b, cfgs) :: rest, p =>
    match applyElems scanFile (signedByte b) cfgs p.elements p.world with
    | .notFound => .error p
    | .fail els w => .error { p with elements := els, world := w }
    | .done els w => attachGo scanFile rest { p with elements := els, world := w }

/-- Source `attach_app_cb(node_path, dict_array)`: unconditionally set
`attached = True`, then fan the unwrapped element configurations out. -/
def attach_app_cb (scanFile : Option (List String)) (p : Proc)
    (els : List (Nat × List (Nat × Config))) : Except Proc Proc :=
  attachGo scanFile els { p with attached := true }

/-! ### Removal and shutdown -/

/-- Source `remove_node_cb()`: print, then `attached = False; have_token = False`.
Nothing else is touched. -/
def remove_node_cb (p : Proc) : Proc :=
  { p with attached := false, have_token := false }

/-- The body of `app_exit`'s inner loop:
`if model.timer != None: model.timer.cancel()`. -/
def Model.exit_cancel (m : Model) (s : Sys) : Model × Sys :=
  match m.timer with
  | none => (m, s)
  | some t =>
    let (t', s') := t.cancel s
    ({ m with timer := some t' }, s')

/-- Source `for model in el.models` of `app_exit`. -/
def cancelModels : List Model → Sys → List Model × Sys
  | [], s => ([], s)
  | m :: ms, s =>
    let (m1, s1) := m.exit_cancel s
    let (ms1, s2) := cancelModels ms s1
    (m1 :: ms1, s2)

/-- Source `for el in app.elements` of `app_exit`. -/
def cancelElements : List Element → Sys → List Element × Sys
  | [], s => ([], s)
  | e :: es, s =>
    let (ms1, s1) := cancelModels e.models s
    let (es1, s2) := cancelElements es s1
    ({ e with models := ms1 } :: es1, s2)

/-- Source `app_exit()`: walk all elements and models cancelling `model.timer`, then
`mainloop.quit()`. -/
def app_exit (p : Proc) : Proc :=
  let (els, s) := cancelElements p.elements p.world.sys
  { p with elements := els, world := { p.world with sys := s, quit := true } }

/-! ### Inbound message dispatch -/

/-- The destination of an inbound message: a 16-bit address or a virtual
label byte array. -/
inductive Dest
  | addr (a : Nat)
  | label (bs : List Nat)
deriving DecidableEq, Repr

/-- Record of one `process_message` invocation: which model was invoked and
with which arguments. -/
structure PMInv where
  model_id : Nat
  vendor : Nat
  source : Nat
  dest : Dest
  key : Nat
  data : List Nat
deriving DecidableEq, Repr

/-- Source `Model.process_message` / `MyVendor.process_message`: both overrides only
print and return; the observable outcome is the invocation itself. -/
def Model.process_message (m : Model) (source : Nat) (dest : Dest) (key : Nat)
    (data : List Nat) : PMInv :=
  ⟨m.model_id, m.vendor, source, dest, key, data⟩

/-- The `for model in self.models` loop of `Element.MessageReceived`. -/
def routeModels : List Model → Nat → Nat → Dest → List Nat → List PMInv
  | [], _, _, _, _ => []
  | m :: ms, source, key, dest, data =>
    m.process_message source dest key data :: routeModels ms source key dest data

/-- Source `Element.MessageReceived(source, key, dest, data)`: print the envelope,
then invoke `process_message(source, dest, key, data)` on every registered
model, in registration order. -/
def Element.MessageReceived (e : Element) (source key : Nat) (dest : Dest)
    (data : List Nat) : List PMInv :=
  routeModels e.models source key dest data

/-! ### Concrete process states used to settle individual claims -/

/-- An application with one element (index 0) carrying the vendor model, as
built by `main`; used for the unknown-element-index witness. -/
def pC2 : Proc := { initProc with elements := [⟨0, [mkMyVendor 1]⟩] }

/-- An application with one element of index 0 carrying a base model; used for
the unknown-element-index counterexample. -/
def pC2b : Proc := { initProc with elements := [⟨0, [mkModel 2]⟩] }

/-- A state in which the vendor model's `pub_timer` is armed (timer id 0 is
armed and tracked) while the base-class `timer` attribute is still `None`, as
after a successful `set_publication`; used for the shutdown claim. -/
def pC3 : Proc :=
  { initProc with
      elements := [⟨0, [{ mkMyVendor 1 with
        pub_period := 2000,
        pub_timer := some ⟨some 2, some (Cb.publish 1), some 0, false⟩ }]⟩],
      world := { initWorld with sys := ⟨1, [0]⟩ } }

/-- A node that has been removed: `attached` and `have_token` are false; used
for the stale-attach counterexample. -/
def pC5 : Proc :=
  { initProc with elements := [⟨0, [mkMyVendor 1]⟩], attached := false, have_token := false }

/-- An attached node holding a token, with the vendor model's publication
timer armed (timer id 0); used for the remove-claim counterexample. -/
def pC8 : Proc :=
  { initProc with
      elements := [⟨0, [{ mkMyVendor 1 with
        pub_period := 2000,
        pub_timer := some ⟨some 2, some (Cb.publish 1), some 0, false⟩ }]⟩],
      attached := true, have_token := true, token := some 81985529205302085,
      world := { initWorld with sys := ⟨1, [0]⟩ } }

/-- A state holding a previously validated token; used for the atomicity
witness of `set_token`. -/
def pC10 : Proc := { initProc with token := some 99, have_token := true }

/-- The timer the vendor model's `pub_timer` becomes when `set_publication`
arms it: `func` and `seconds` stored by `start`, `thread` tracking the newly
created timer id. -/
def armedPubTimer (pt : ModTimer) (mid p i : Nat) : ModTimer :=
  { pt with
    func := some (Cb.publish mid)
    seconds := some ((p : ℚ) / 1000)
    thread := some i }

/-- The timer system after arming one fresh timer. -/
def armedSys (s : Sys) : Sys :=
  { s with nextId := s.nextId + 1, armed := s.armed ++ [s.nextId] }

/-! ## Theorems

### C1 — double `start` on a `ModTimer` -/

/-- Claim C1 (counterexample): calling `start` twice in succession on a fresh
`ModTimer`, with no intervening `cancel` and no completed tick, leaves two
armed timers — not exactly one.  The `busy` flag is false outside the
reschedule step of a tick, so it never blocks the second `start`. -/
theorem double_start_two_armed_cex :
    (let r1 := freshModTimer.start 5 (Cb.publish 1) ⟨0, []⟩
     let r2 := r1.1.start 5 (Cb.publish 1) r1.2
     r2.2.armed = [0, 1] ∧ r2.2.armed.length ≠ 1) := by
  decide

/-- Claim C1 (amended): two successive `start` calls on a non-busy timer each
arm a fresh timer, so two timers end up armed; `thread` tracks only the second
one, and `cancel` therefore removes only the second — the first stays armed
(orphaned) and will still fire its callback. -/
theorem double_start_leaves_orphan (t : ModTimer) (s : Sys) (q1 q2 : ℚ) (f1 f2 : Cb)
    (hb : t.busy = false) (hw : s.wf) :
    (let r1 := t.start q1 f1 s
     let r2 := r1.1.start q2 f2 r1.2
     r2.2.armed = s.armed ++ [s.nextId, s.nextId + 1] ∧
     r2.1.thread = some (s.nextId + 1) ∧
     (r2.1.cancel r2.2).2.armed = s.armed ++ [s.nextId]) := by
  have h2 : s.nextId + 1 ∉ s.armed := fun h => absurd (hw _ h) (by omega)
  have h3 : s.nextId ≠ s.nextId + 1 := by omega
  refine ⟨?_, ?_, ?_⟩ <;>
    simp [ModTimer.start, ModTimer.scheduleTimer, ModTimer.cancel, hb,
      List.erase_append_right _ h2, List.erase_cons, h3]

/-- Claim C1 witness: the amended statement on a fresh timer and an empty
timer system. -/
theorem double_start_leaves_orphan_witness :
    (let r1 := freshModTimer.start 5 (Cb.publish 1) ⟨0, []⟩
     let r2 := r1.1.start 7 (Cb.publish 2) r1.2
     r2.2.armed = [] ++ [0, 0 + 1] ∧
     r2.1.thread = some (0 + 1) ∧
     (r2.1.cancel r2.2).2.armed = [] ++ [0]) :=
  double_start_leaves_orphan freshModTimer ⟨0, []⟩ 5 7 (Cb.publish 1) (Cb.publish 2) rfl
    (by intro i hi; simp at hi)

/-! ### C6 — a raising tick callback kills the schedule -/

/-- Claim C6 (amended): when the tick callback raises, the exception escapes
`_timeout_cb` uncaught (the source has no try/except around `self.func()`):
`busy` is never set, no replacement timer is armed, and the fired timer has
already left the armed set — so the schedule is silently lost rather than
caught-logged-and-rearmed. -/
theorem timeout_exception_no_reschedule (t : ModTimer) (i : Nat) (s : Sys) :
    t.timeout_cb i true s = .error (t, { s with armed := s.armed.erase i }) := by
  cases h : t.func <;> simp [ModTimer.timeout_cb, h]

/-- Claim C6 (counterexample): a concrete armed timer whose callback raises —
the tick ends in an escaped exception and the armed set is empty afterwards;
the reschedule required by the claim did not occur. -/
theorem timeout_exception_cex :
    ModTimer.timeout_cb ⟨some 5, some (Cb.publish 1), some 0, false⟩ 0 true ⟨1, [0]⟩
      = .error (⟨some 5, some (Cb.publish 1), some 0, false⟩, ⟨1, []⟩) := by
  rfl

/-! ### C9 — element-wide message dispatch -/

theorem routeModels_eq_map (ms : List Model) (source key : Nat) (dest : Dest)
    (data : List Nat) :
    routeModels ms source key dest data
      = ms.map (fun m => m.process_message source dest key data) := by
  induction ms with
  | nil => rfl
  | cons m ms ih => simp [routeModels, ih]

/-- Claim C9: `Element.MessageReceived` invokes `process_message` exactly once
per registered model, in registration order — the invocation list is exactly
the model list mapped through the invocation, hence one call per model (not
just the first) and in the same order. -/
theorem message_received_all_models (e : Element) (source key : Nat) (dest : Dest)
    (data : List Nat) :
    e.MessageReceived source key dest data
      = e.models.map (fun m => m.process_message source dest key data) ∧
    (e.MessageReceived source key dest data).length = e.models.length := by
  refine ⟨routeModels_eq_map _ _ _ _ _, ?_⟩
  rw [Element.MessageReceived, routeModels_eq_map]
  simp

/-! ### C8 — what `remove_node_cb` actually does -/

/-- Claim C8 (amended): a successful remove clears `attached` and `have_token`
(the node is in state Removed), but nothing else happens: the stored token
value, the elements, and the whole timer world — including any armed
publication timer — are untouched; no timer is cancelled. -/
theorem remove_node_cb_effect (p : Proc) :
    (remove_node_cb p).attached = false ∧ (remove_node_cb p).have_token = false ∧
    (remove_node_cb p).token = p.token ∧ (remove_node_cb p).elements = p.elements ∧
    (remove_node_cb p).world = p.world := by
  simp [remove_node_cb]

/-- Claim C8 (counterexample): from a state with an armed publication timer
(timer id 0), `remove_node_cb` clears the flags but timer 0 is still armed
afterwards, contradicting "any armed timers cancelled". -/
theorem remove_leaves_timer_armed_cex :
    (remove_node_cb pC8).attached = false ∧ (remove_node_cb pC8).have_token = false ∧
    (remove_node_cb pC8).world.sys.armed = [0] := by
  decide

/-! ### C3 — `app_exit` misses the vendor model's timers -/

/-- Claim C3 (code-bug evaluation): `app_exit` cancels only `model.timer`, an
attribute that stays `None` for every model in this program; `MyVendor` keeps
its armed timer in `pub_timer`, which `app_exit` never visits.  At `pC3` —
vendor model with armed publication timer 0 — `app_exit` quits the main loop
with timer 0 still armed and all model state unchanged. -/
theorem app_exit_leaves_vendor_timer_armed :
    (app_exit pC3).world.quit = true ∧
    (app_exit pC3).world.sys.armed = [0] ∧
    (app_exit pC3).elements = pC3.elements := by
  decide

/-! ### C5 — stale attach completions are not guarded against -/

theorem attachGo_preserves_globals (sf : Option (List String))
    (els : List (Nat × List (Nat × Config))) (p : Proc) :
    (resOf (attachGo sf els p)).attached = p.attached ∧
    (resOf (attachGo sf els p)).have_token = p.have_token ∧
    (resOf (attachGo sf els p)).token = p.token := by
  induction els generalizing p with
  | nil => exact ⟨rfl, rfl, rfl⟩
  | cons hd tl ih =>
    obtain ⟨b, cfgs⟩ := hd
    simp only [attachGo]
    cases applyElems sf (signedByte b) cfgs p.elements p.world with
    | notFound => exact ⟨rfl, rfl, rfl⟩
    | fail els w => exact ⟨rfl, rfl, rfl⟩
    | done els w => exact ih _

/-- Claim C5 (amended): `attach_app_cb` contains no staleness guard — its
behaviour is identical whatever the prior `attached` value (in particular
after the node moved to Removed), it unconditionally sets `attached := true`,
and it does not restore `have_token`; so a stale attach success after a remove
does transition the state and does apply the delivered configuration, contrary
to the claim. -/
theorem attach_ignores_prior_state (sf : Option (List String)) (p : Proc)
    (els : List (Nat × List (Nat × Config))) (a : Bool) :
    attach_app_cb sf { p with attached := a } els = attach_app_cb sf p els ∧
    (resOf (attach_app_cb sf p els)).attached = true ∧
    (resOf (attach_app_cb sf p els)).have_token = p.have_token := by
  refine ⟨rfl, ?_, ?_⟩
  · exact (attachGo_preserves_globals sf els { p with attached := true }).1
  · exact (attachGo_preserves_globals sf els { p with attached := true }).2.1

/-- Claim C5 (counterexample): from the removed state `pC5` (`attached` and
`have_token` false), a late attach success flips `attached` to true and applies
the delivered binding configuration to the vendor model — the claim required
`attached` to remain false and no configuration to be applied. -/
theorem attach_after_remove_cex :
    (resOf (attach_app_cb none pC5 [(0, [(1, ⟨some [3], none, none⟩)])])).attached = true ∧
    (resOf (attach_app_cb none pC5 [(0, [(1, ⟨some [3], none, none⟩)])])).elements
      = [⟨0, [{ mkMyVendor 1 with bindings := [3] }]⟩] := by
  decide

/-! ### C2 — unknown element index in the attach fan-out -/

theorem attachGo_append (sf : Option (List String))
    (xs ys : List (Nat × List (Nat × Config))) (p : Proc) :
    attachGo sf (xs ++ ys) p
      = match attachGo sf xs p with
        | .ok q => attachGo sf ys q
        | .error q => .error q := by
  induction xs generalizing p with
  | nil => rfl
  | cons hd tl ih =>
    obtain ⟨b, cfgs⟩ := hd
    simp only [List.cons_append, attachGo]
    cases applyElems sf (signedByte b) cfgs p.elements p.world with
    | notFound => rfl
    | fail els w => rfl
    | done els w => exact ih _

theorem applyElems_of_get_element_none (sf : Option (List String)) (idx : Int)
    (cfgs : List (Nat × Config)) (els : List Element) (w : World)
    (h : get_element els idx = none) :
    applyElems sf idx cfgs els w = .notFound := by
  induction els with
  | nil => rfl
  | cons e es ih =>
    rw [get_element, List.find?_cons] at h
    by_cases hc : (e.get_index == idx) = true
    · simp only [hc] at h
      exact absurd h (by simp)
    · rw [Bool.not_eq_true] at hc
      simp only [hc] at h
      simp [applyElems, hc, ih h]

/-- Claim C2 (amended): an attach configuration entry whose element index
matches no registered element is not skipped: `get_element` returns `None` and
the subsequent `set_model_config` call on `None` raises an `AttributeError`
that escapes `attach_app_cb`.  At the moment of the raise the state is
exactly the state left by the preceding entries — the unknown entry itself has
affected no model state — and the remaining entries are never applied. -/
theorem attach_unknown_element_raises (sf : Option (List String)) (p q : Proc)
    (pre rest : List (Nat × List (Nat × Config))) (b : Nat) (cfgs : List (Nat × Config))
    (hpre : attachGo sf pre { p with attached := true } = .ok q)
    (hmiss : get_element q.elements (signedByte b) = none) :
    attach_app_cb sf p (pre ++ (b, cfgs) :: rest) = .error q := by
  rw [attach_app_cb, attachGo_append, hpre]
  simp only [attachGo, applyElems_of_get_element_none sf _ cfgs q.elements q.world hmiss]

/-- Claim C2 witness: the amended statement at a concrete one-element
application and an entry addressing the unregistered element index 1. -/
theorem attach_unknown_element_raises_witness :
    attach_app_cb none pC2 ([] ++ (1, []) :: []) = .error { pC2 with attached := true } :=
  attach_unknown_element_raises none pC2 { pC2 with attached := true } [] [] 1 [] rfl
    (by decide)

/-- Claim C2 (counterexample): with only element 0 registered, an attach fan-out
carrying an entry for element index 1 raises (`.error`) instead of logging and
skipping; the error state shows every registered model untouched. -/
theorem attach_unknown_element_cex :
    attach_app_cb none pC2b [(1, [(2, ⟨some [0], none, none⟩)])]
      = .error { pC2b with attached := true } := by
  rfl

/-! ### C4 and C10 — `set_token` validation and atomicity -/

theorem set_token_fail (s : String) (p : Proc)
    (h : s.length ≠ 16 ∨ pyIntHex s = none) :
    set_token s p = ({ p with input_error := true }, []) := by
  by_cases hl : s.length = 16
  · rcases h with h | h
    · exact absurd hl h
    · simp [set_token, hl, h, raise_error]
  · simp [set_token, hl, raise_error]

/-- Claim C4 (amended): from a state without a token, any string whose length
is not 16 makes `set_token` flag a local validation error and leave
`have_token` false with no network call; the same holds for a 16-character
string that Python's base-16 `int` parser rejects.  But "contains a
non-hexadecimal character" is not the right criterion: besides plain hex
digits, `int(s, 16)` also accepts a sign, a `0x`/`0X` prefix, surrounding
whitespace, and underscores between digits, so some 16-character strings with
non-hex characters are accepted (see the counterexample). -/
theorem set_token_rejects_invalid (s : String) (p : Proc)
    (hft : p.have_token = false)
    (h : s.length ≠ 16 ∨ pyIntHex s = none) :
    (set_token s p).1.input_error = true ∧ (set_token s p).1.have_token = false ∧
    (set_token s p).2 = [] := by
  rw [set_token_fail s p h]
  exact ⟨rfl, hft, rfl⟩

/-- Claim C4 witness: the amended statement at a short string and at a
16-character string containing the non-hex character `g`. -/
theorem set_token_rejects_invalid_witness :
    ((set_token "abc" initProc).1.input_error = true ∧
     (set_token "abc" initProc).1.have_token = false ∧
     (set_token "abc" initProc).2 = []) ∧
    ((set_token "123456789012345g" initProc).1.input_error = true ∧
     (set_token "123456789012345g" initProc).1.have_token = false ∧
     (set_token "123456789012345g" initProc).2 = []) :=
  ⟨set_token_rejects_invalid "abc" initProc rfl (Or.inl (by decide)),
   set_token_rejects_invalid "123456789012345g" initProc rfl (Or.inr (by decide))⟩

/-- Claim C4 (counterexample): `"0x12345678901234"` has 16 characters and
contains characters that are not hexadecimal digits, yet `set_token` accepts
it: `int(s, 16)` honours the `0x` prefix, so `have_token` becomes true, no
error is raised, and the token is stored. -/
theorem set_token_hex_prefix_cex :
    "0x12345678901234".length = 16 ∧
    ("0x12345678901234".data.any fun c => (hexDigitVal c).isNone) = true ∧
    (set_token "0x12345678901234" initProc).1.have_token = true ∧
    (set_token "0x12345678901234" initProc).1.input_error = false ∧
    (set_token "0x12345678901234" initProc).1.token = some 0x12345678901234 := by
  decide

/-- Claim C10: `set_token` is atomic on failure — on either failing path
(wrong length, or rejected by the base-16 parser) it returns before assigning,
so `token` and `have_token` keep exactly their prior values, whatever they
were. -/
theorem set_token_failure_atomic (s : String) (p : Proc)
    (h : s.length ≠ 16 ∨ pyIntHex s = none) :
    (set_token s p).1.token = p.token ∧ (set_token s p).1.have_token = p.have_token := by
  rw [set_token_fail s p h]
  exact ⟨rfl, rfl⟩

/-- Claim C10 witness: a state already holding a validated token keeps it when
`set_token` is called with an invalid string. -/
theorem set_token_failure_atomic_witness :
    (set_token "zz" pC10).1.token = pC10.token ∧
    (set_token "zz" pC10).1.have_token = pC10.have_token :=
  set_token_failure_atomic "zz" pC10 (Or.inl (by decide))

/-! ### C7 — `set_publication` period handling -/

theorem setPub_zero_thread_none (sf : Option (List String)) (m : Model) (w : World)
    (pt : ModTimer) (hv : m.variant = .myVendor) (hp : m.pub_timer = some pt)
    (ht : pt.thread = none) :
    m.set_publication sf 0 w = .ok ({ m with pub_period := 0 }, w) := by
  simp [Model.set_publication, hv, vendorSetPub, hp, ModTimer.cancel, ht]

theorem setPub_zero_thread_some (sf : Option (List String)) (m : Model) (w : World)
    (pt : ModTimer) (i : Nat) (hv : m.variant = .myVendor) (hp : m.pub_timer = some pt)
    (ht : pt.thread = some i) :
    m.set_publication sf 0 w
      = .ok ({ m with pub_period := 0, pub_timer := some { pt with thread := none } },
             { w with sys := { w.sys with armed := w.sys.armed.erase i } }) := by
  simp [Model.set_publication, hv, vendorSetPub, hp, ModTimer.cancel, ht]

theorem setPub_small (sf : Option (List String)) (m : Model) (w : World) (p : Nat)
    (hv : m.variant = .myVendor) (h0 : p ≠ 0) (h1 : p < 1000) :
    m.set_publication sf p w = .ok ({ m with pub_period := p }, w) := by
  simp [Model.set_publication, hv, vendorSetPub, h0, h1]

theorem setPub_arm (lines : List String) (d : List (String × String)) (m : Model)
    (w : World) (pt : ModTimer) (p : Nat)
    (hv : m.variant = .myVendor) (hp : m.pub_timer = some pt) (hb : pt.busy = false)
    (hge : 1000 ≤ p) (hl : lines ≠ [])
    (hscan : scanLines lines w.scanned = .ok d) (hd : d ≠ []) :
    m.set_publication (some lines) p w
      = .ok ({ m with
               pub_period := p
               state := .scanJson d
               pub_timer := some (armedPubTimer pt m.model_id p w.sys.nextId) },
             { w with scanned := d, sys := armedSys w.sys }) := by
  have h0 : ¬ p = 0 := by omega
  have h1 : ¬ p < 1000 := by omega
  have hl' : ¬ lines.length = 0 := by simpa [List.length_eq_zero] using hl
  have hd' : ¬ d.length = 0 := by simpa [List.length_eq_zero] using hd
  simp [Model.set_publication, hv, vendorSetPub, h0, h1, hl', hscan, hd', hp,
    ModTimer.start, ModTimer.scheduleTimer, hb, armedPubTimer, armedSys]

theorem setPub_base (sf : Option (List String)) (m : Model) (w : World) (p : Nat)
    (hv : m.variant = .base) :
    m.set_publication sf p w = .ok ({ m with pub_period := p }, w) := by
  simp [Model.set_publication, hv]

theorem setPub_fresh_shape (sf : Option (List String)) (p0 mid : Nat)
    (sc : List (String × String)) (q : Bool) :
    (let r1 := resOf ((mkMyVendor mid).set_publication sf p0 ⟨⟨0, []⟩, sc, q⟩)
     r1.1.variant = .myVendor ∧
     ((∃ pt1, r1.1.pub_timer = some pt1 ∧ pt1.thread = none ∧ r1.2.sys.armed = []) ∨
      (∃ pt1, r1.1.pub_timer = some pt1 ∧ pt1.thread = some 0 ∧ r1.2.sys.armed = [0]))) := by
  by_cases h0 : p0 = 0
  · subst h0
    rw [setPub_zero_thread_none sf _ _ freshModTimer rfl rfl rfl]
    exact ⟨rfl, Or.inl ⟨freshModTimer, rfl, rfl, rfl⟩⟩
  · by_cases h1 : p0 < 1000
    · rw [setPub_small sf _ _ p0 rfl h0 h1]
      exact ⟨rfl, Or.inl ⟨freshModTimer, rfl, rfl, rfl⟩⟩
    · rcases sf with _ | lines
      · refine ⟨?_, Or.inl ⟨freshModTimer, ?_, ?_, ?_⟩⟩ <;>
          simp [Model.set_publication, mkMyVendor, mkModel, vendorSetPub, h0, h1,
            freshModTimer, resOf]
      · by_cases hl : lines.length = 0
        · refine ⟨?_, Or.inl ⟨freshModTimer, ?_, ?_, ?_⟩⟩ <;>
            simp [Model.set_publication, mkMyVendor, mkModel, vendorSetPub, h0, h1, hl,
              freshModTimer, resOf]
        · cases hsc : scanLines lines sc with
          | error d =>
            refine ⟨?_, Or.inl ⟨freshModTimer, ?_, ?_, ?_⟩⟩ <;>
              simp [Model.set_publication, mkMyVendor, mkModel, vendorSetPub, h0, h1, hl,
                hsc, freshModTimer, resOf]
          | ok d =>
            by_cases hd : d.length = 0
            · refine ⟨?_, Or.inl ⟨freshModTimer, ?_, ?_, ?_⟩⟩ <;>
                simp [Model.set_publication, mkMyVendor, mkModel, vendorSetPub, h0, h1,
                  hl, hsc, hd, freshModTimer, resOf]
            · rw [setPub_arm lines d _ _ freshModTimer p0 rfl rfl rfl (by omega)
                (by simpa [List.length_eq_zero] using hl) hsc
                (by simpa [List.length_eq_zero] using hd)]
              exact ⟨rfl, Or.inr ⟨armedPubTimer freshModTimer mid p0 0, rfl, rfl, rfl⟩⟩

theorem setPub_then_zero_unarmed (sf sf' : Option (List String)) (p0 mid : Nat)
    (sc : List (String × String)) (q : Bool) :
    (let r1 := resOf ((mkMyVendor mid).set_publication sf p0 ⟨⟨0, []⟩, sc, q⟩)
     let r2 := resOf (r1.1.set_publication sf' 0 r1.2)
     r2.2.sys.armed = [] ∧ r2.1.pub_period = 0) := by
  have hs := setPub_fresh_shape sf p0 mid sc q
  simp only at hs ⊢
  obtain ⟨hv, hcase⟩ := hs
  rcases hcase with ⟨pt1, hp1, ht1, ha1⟩ | ⟨pt1, hp1, ht1, ha1⟩
  · rw [setPub_zero_thread_none sf' _ _ pt1 hv hp1 ht1]
    exact ⟨ha1, rfl⟩
  · rw [setPub_zero_thread_some sf' _ _ pt1 0 hv hp1 ht1]
    refine ⟨?_, rfl⟩
    simp only [resOf] at ha1 ⊢
    rw [ha1]
    decide

/-- Claim C7 (amended): publication-period handling as the code implements it.
(1) For the vendor model started from an unarmed scheduler and an empty timer
system, any single `set_publication` call followed by `set_publication 0`
leaves no armed timer, so no further publish ticks can occur.  (2) A nonzero
period below 1000 ms only stores the period: it neither arms nor cancels the
scheduler — so "a nonzero period arms the PublicationScheduler" fails.  (3) A
period of at least 1000 ms arms one new timer exactly when the scan file is
non-empty and parses to a non-empty dictionary.  (4) The base `Model`'s
`set_publication` merely stores the period and never arms or cancels
anything. -/
theorem set_publication_period_cases :
    (∀ (sf sf' : Option (List String)) (p0 mid : Nat) (sc : List (String × String))
        (q : Bool),
      (let r1 := resOf ((mkMyVendor mid).set_publication sf p0 ⟨⟨0, []⟩, sc, q⟩)
       let r2 := resOf (r1.1.set_publication sf' 0 r1.2)
       r2.2.sys.armed = [] ∧ r2.1.pub_period = 0)) ∧
    (∀ (sf : Option (List String)) (m : Model) (w : World) (p : Nat),
      m.variant = .myVendor → p ≠ 0 → p < 1000 →
      m.set_publication sf p w = .ok ({ m with pub_period := p }, w)) ∧
    (∀ (lines : List String) (d : List (String × String)) (m : Model) (w : World)
        (pt : ModTimer) (p : Nat),
      m.variant = .myVendor → m.pub_timer = some pt → pt.busy = false →
      1000 ≤ p → lines ≠ [] → scanLines lines w.scanned = .ok d → d ≠ [] →
      m.set_publication (some lines) p w
        = .ok ({ m with
                 pub_period := p
                 state := .scanJson d
                 pub_timer := some (armedPubTimer pt m.model_id p w.sys.nextId) },
               { w with scanned := d, sys := armedSys w.sys })) ∧
    (∀ (sf : Option (List String)) (m : Model) (w : World) (p : Nat),
      m.variant = .base →
      m.set_publication sf p w = .ok ({ m with pub_period := p }, w)) :=
  ⟨setPub_then_zero_unarmed,
   fun sf m w p hv h0 h1 => setPub_small sf m w p hv h0 h1,
   fun lines d m w pt p hv hp hb hge hl hscan hd =>
     setPub_arm lines d m w pt p hv hp hb hge hl hscan hd,
   fun sf m w p hv => setPub_base sf m w p hv⟩

/-- Claim C7 witness: the amended statement instantiated — a 700 ms period on
the vendor model only stores the period; a 2000 ms period with a usable scan
file arms one timer; the base model stores a period without arming. -/
theorem set_publication_period_cases_witness :
    ((mkMyVendor 3).set_publication none 700 initWorld
      = .ok ({ mkMyVendor 3 with pub_period := 700 }, initWorld)) ∧
    ((mkMyVendor 3).set_publication (some ["[NEW] a b c dd"]) 2000 initWorld
      = .ok ({ mkMyVendor 3 with
               pub_period := 2000
               state := .scanJson [("d", "c")]
               pub_timer := some (armedPubTimer freshModTimer 3 2000 0) },
             { initWorld with scanned := [("d", "c")], sys := armedSys initWorld.sys })) ∧
    ((mkModel 4).set_publication none 900 initWorld
      = .ok ({ mkModel 4 with pub_period := 900 }, initWorld)) :=
  ⟨set_publication_period_cases.2.1 none (mkMyVendor 3) initWorld 700 rfl
      (by decide) (by decide),
   set_publication_period_cases.2.2.1 ["[NEW] a b c dd"] [("d", "c")] (mkMyVendor 3)
      initWorld freshModTimer 2000 rfl rfl rfl (by decide) (by decide) (by rfl)
      (by decide),
   set_publication_period_cases.2.2.2 none (mkModel 4) initWorld 900 rfl⟩

/-- Claim C7 (counterexample): `setConfig` with the nonzero period 500 ms does
not arm the publication scheduler — the call returns with the period stored,
no timer armed, and the scheduler's `thread` still unset. -/
theorem nonzero_small_period_not_armed_cex :
    (mkMyVendor 1).set_publication none 500 initWorld
      = .ok ({ mkMyVendor 1 with pub_period := 500 }, initWorld) ∧
    (resOf ((mkMyVendor 1).set_publication none 500 initWorld)).2.sys.armed = [] ∧
    (resOf ((mkMyVendor 1).set_publication none 500 initWorld)).1.pub_timer
      = some freshModTimer := by
  refine ⟨by rfl, by rfl, by rfl⟩

end NodeProv
